import Mathlib

/-!
Verification of the SPRUCE soil-temperature scripts
(`20191017_SPRUCE_Soil_Temp_MAT_mlf.py`, the "MAT" variant, and
`20191017_SPRUCE_Soil_Temp_mlf.py`, the "STemp" variant).

Shallow embedding conventions:
* A raw CSV field is a `Tok`: either a numeric token carrying an exact
  rational value (`Tok.val q`, standing for a string on which Python's
  `float` succeeds), or `Tok.missing` (an empty or non-numeric token on
  which `float` raises `ValueError`).  Floating-point values are idealised
  as rationals; `numpy.std`'s square root is taken in `ℝ`.
* Python exceptions are modelled with `Except PyErr`; each constructor of
  `PyErr` corresponds to one raise site (`outOfRange` for the explicit
  `raise ValueError` range check, `missingSample` for `float()` failing on a
  missing token, `typeError` for `int + str`, `indexError` for list
  indexing out of bounds).
* Python list indexing (which accepts negative indices counting from the
  end) is `pyGet`.
* `bisect.bisect_left` on a sorted list returns the number of elements
  strictly below the probe; `bisect_left` below is that count.  All call
  sites in the scripts pass the global, strictly increasing `depths` list.
-/

/-- One raw CSV field: a parseable numeric token or a missing/non-numeric one. -/
inductive Tok where
  | missing : Tok
  | val : ℚ → Tok
deriving DecidableEq, Repr

/-- A Python runtime value produced by `get_depth`: the `depth == 0` branch
returns the raw field (a *string* in Python), every other branch returns a
float. -/
inductive PyVal where
  | ofStr : Tok → PyVal
  | ofNum : ℚ → PyVal
deriving DecidableEq, Repr

/-- Python exceptions, one constructor per raise site in the scripts. -/
inductive PyErr where
  | outOfRange : PyErr
  | missingSample : PyErr
  | typeError : PyErr
  | indexError : PyErr
deriving DecidableEq, Repr

/-- Python list indexing `l[k]`: non-negative indices from the front,
negative indices from the end (`l[-m]` is `l[len l - m]` when `m ≤ len l`),
out-of-bounds gives `none` (Python raises `IndexError`). -/
def pyGet {α : Type} (l : List α) (k : ℤ) : Option α :=
  if 0 ≤ k then l.get? k.toNat
  else if (-k).toNat ≤ l.length then l.get? (l.length - (-k).toNat)
  else none

/-- `float(field)`: parses a numeric token, raises `ValueError` on a missing
one; indexing failure surfaces as `IndexError`. -/
def pyFloat : Option Tok → Except PyErr ℚ
  | none => .error .indexError
  | some .missing => .error .missingSample
  | some (.val q) => .ok q

/-- `bisect.bisect_left(l, x)` on a sorted list: the number of elements
strictly less than `x` (the leftmost insertion point). -/
def bisect_left (l : List ℤ) (x : ℤ) : ℕ :=
  l.countP (fun y => decide (y < x))

/-- The numeric content of a `PyVal`, if any. -/
def PyVal.toQ : PyVal → Option ℚ
  | .ofStr .missing => none
  | .ofStr (.val q) => some q
  | .ofNum q => some q

/-- The configured sensor depths, shared by both scripts. -/
def depths : List ℤ := [0, 5, 10, 20, 30, 40, 50, 100, 200]

/-- The configured sampling intervals, shared by both scripts. -/
def intervals : List (ℤ × ℤ) :=
  [(1, 10), (10, 20), (20, 30), (30, 40), (40, 50), (50, 75),
   (75, 100), (100, 125), (125, 150), (150, 175), (175, 200)]

/-- The configured plot allow-list, shared by both scripts. -/
def plots : List ℤ := [4, 6, 7, 8, 10, 11, 13, 16, 17, 19, 20]

/-- Python's `range(a, b + 1)`: the integers `a, a+1, …, b`. -/
def rangeZ (a b : ℤ) : List ℤ :=
  (List.range (b + 1 - a).toNat).map (fun k : ℕ => a + (k : ℤ))

namespace MAT

/-- `get_depth` of the MAT variant.  `fields` is the Python `fields` list
(timestamp at index 0, plot at index 1, the nine sensor tokens at 2..10);
`dl` is the global `depths` list (a parameter of the embedding).  The MAT
variant's range guard is only `i >= len(depths)` — the `depth < 0` check was
removed ("Removed depth < 0 condition"). -/
def get_depth (dl : List ℤ) (fields : List Tok) (depth : ℤ) : Except PyErr PyVal :=
  if depth = 0 then
    match pyGet fields 2 with
    | some f => .ok (.ofStr f)
    | none => .error .indexError
  else
    let i : ℤ := (bisect_left dl depth : ℤ)
    if dl.length ≤ bisect_left dl depth then .error .outOfRange
    else
      match pyFloat (pyGet fields (2 + (i - 1))) with
      | .error e => .error e
      | .ok lo =>
        match pyFloat (pyGet fields (2 + i)) with
        | .error e => .error e
        | .ok hi =>
          match pyGet dl i, pyGet dl (i - 1) with
          | some di, some dim1 =>
            let m : ℚ := (hi - lo) / ((di : ℚ) - (dim1 : ℚ))
            .ok (.ofNum (lo + ((depth : ℚ) - (dim1 : ℚ)) * m))
          | _, _ => .error .indexError

/-- The summation loop of MAT `average`: `sum` starts at `0` (an `int`);
any exception from `get_depth`, and the `TypeError` raised by adding the
string returned by the `depth == 0` branch, are caught by the bare
`except:` which makes `average` return `None`. -/
def sumTemps (dl : List ℤ) (fields : List Tok) : List ℤ → ℚ → Option ℚ
  | [], acc => some acc
  | d :: ds, acc =>
    match get_depth dl fields d with
    | .error _ => none
    | .ok (.ofStr _) => none
    | .ok (.ofNum q) => sumTemps dl fields ds (acc + q)

/-- `average` of the MAT variant: sums `get_depth` over
`range(interval[0], interval[1] + 1)` and divides by
`(interval[1] - interval[0]) + 1`; returns `None` when the loop raised. -/
def average (dl : List ℤ) (fields : List Tok) (iv : ℤ × ℤ) : Option ℚ :=
  (sumTemps dl fields (rangeZ iv.1 iv.2) 0).map
    (fun s => s / (((iv.2 : ℚ) - (iv.1 : ℚ)) + 1))

end MAT

namespace STemp

/-- `get_depth` of the STemp variant: identical to the MAT variant except
that the range guard is `depth < 0 or i >= len(depths)`. -/
def get_depth (dl : List ℤ) (fields : List Tok) (depth : ℤ) : Except PyErr PyVal :=
  if depth = 0 then
    match pyGet fields 2 with
    | some f => .ok (.ofStr f)
    | none => .error .indexError
  else
    let i : ℤ := (bisect_left dl depth : ℤ)
    if depth < 0 ∨ dl.length ≤ bisect_left dl depth then .error .outOfRange
    else
      match pyFloat (pyGet fields (2 + (i - 1))) with
      | .error e => .error e
      | .ok lo =>
        match pyFloat (pyGet fields (2 + i)) with
        | .error e => .error e
        | .ok hi =>
          match pyGet dl i, pyGet dl (i - 1) with
          | some di, some dim1 =>
            let m : ℚ := (hi - lo) / ((di : ℚ) - (dim1 : ℚ))
            .ok (.ofNum (lo + ((depth : ℚ) - (dim1 : ℚ)) * m))
          | _, _ => .error .indexError

/-- The summation loop of STemp `average`: there is no `try`/`except`, so
the first exception (from `get_depth`, or the `TypeError` from adding the
string returned by the `depth == 0` branch) propagates to the caller. -/
def sumTemps (dl : List ℤ) (fields : List Tok) : List ℤ → ℚ → Except PyErr ℚ
  | [], acc => .ok acc
  | d :: ds, acc =>
    match get_depth dl fields d with
    | .error e => .error e
    | .ok (.ofStr _) => .error .typeError
    | .ok (.ofNum q) => sumTemps dl fields ds (acc + q)

/-- `average` of the STemp variant: like MAT's but unguarded — an exception
in any unit-depth sample escapes `average` itself. -/
def average (dl : List ℤ) (fields : List Tok) (iv : ℤ × ℤ) : Except PyErr ℚ :=
  (sumTemps dl fields (rangeZ iv.1 iv.2) 0).map
    (fun s => s / (((iv.2 : ℚ) - (iv.1 : ℚ)) + 1))

end STemp

/-- `numpy.mean` / `numpy.nanmean` over the non-missing values: sum divided
by the count. -/
def meanQ (v : List ℚ) : ℚ := v.sum / (v.length : ℚ)

/-- The quantity whose square root `numpy.std` / `numpy.nanstd` reports
(with the default `ddof = 0`): the mean of the squared deviations from the
mean, denominator = count.  The scripts print `Real.sqrt` of this. -/
def varQ (v : List ℚ) : ℚ :=
  (v.map (fun x => (x - meanQ v) ^ 2)).sum / (v.length : ℚ)

/-- One numeric summary row (min, max, mean, and the squared standard
deviation `rvar`; the script prints `sqrt rvar`).  `none` models a `NaN`
entry (`numpy.nanmean`/`nanstd`/`nanmin`/`nanmax` of an all-`NaN` array). -/
structure StatRow where
  rmin : Option ℚ
  rmax : Option ℚ
  rmean : Option ℚ
  rvar : Option ℚ
deriving DecidableEq, Repr

/-- Outcome of the summary stage for one (date, plot, interval) key: either
the "no data for …" report or a printed numeric row. -/
inductive Summary where
  | noData : Summary
  | row : StatRow → Summary
deriving DecidableEq, Repr

namespace MAT

/-- One filtered data line of the MAT script, after `filter(line)`:
`yr` is `int(line[0:4])` (also `int(fields[0][0:4])`), `plot` is
`int(fields[1])` (equally the value `float(fields[1])` parses to), and
`temps` are the nine sensor tokens `fields[2..10]`. -/
structure Record where
  yr : ℤ
  plot : ℤ
  temps : List Tok
deriving DecidableEq, Repr

/-- The Python `fields` list of a record.  Index 0 is the timestamp string
(`float` on it would raise, hence `Tok.missing`), index 1 the plot
identifier (a numeric token), indices 2.. the sensor tokens. -/
def fieldsOf (r : Record) : List Tok := .missing :: .val r.plot :: r.temps

/-- MAT `is_year`: exact calendar-year match (`fields == date.year`). -/
def is_year (yr dateYear : ℤ) : Bool := yr == dateYear

/-- MAT `in_range` (used by the summary stage): year-or-later
(`int(fields[0][0:4]) >= date.year`). -/
def in_range (r : Record) (dateYear : ℤ) : Bool := decide (dateYear ≤ r.yr)

/-- The MAT filtering loop: for each line and each sampling date, if
`is_year` matches and the plot is in the allow-list, append the filtered
fields to `data` (one copy per matching date). -/
def filterData (sdates : List ℤ) (pl : List ℤ) (lines : List Record) :
    List Record :=
  lines.flatMap (fun line =>
    sdates.flatMap (fun dy =>
      if is_year line.yr dy then
        if line.plot ∈ pl then [line] else []
      else []))

/-- The list `temps` collected by the MAT summary stage for one
(date, plot, interval) key: the recomputed `average` of every data line
passing `in_range(sample, date) and int(sample[1]) == plot`.  Absent
averages (`None`, i.e. `NaN` after the `float64` conversion) stay in the
list. -/
def collected (dl : List ℤ) (data : List Record) (dateYear plot : ℤ)
    (iv : ℤ × ℤ) : List (Option ℚ) :=
  (data.filter (fun s => in_range s dateYear && s.plot == plot)).map
    (fun s => average dl (fieldsOf s) iv)

/-- The non-`NaN` entries of the collected list. -/
def nanVals (ts : List (Option ℚ)) : List ℚ := ts.filterMap id

/-- `numpy.nanmean`: mean of the non-`NaN` entries, `NaN` when there are
none. -/
def nanmean (ts : List (Option ℚ)) : Option ℚ :=
  if nanVals ts = [] then none else some (meanQ (nanVals ts))

/-- Squared `numpy.nanstd` (`ddof = 0`): mean squared deviation over the
non-`NaN` entries, `NaN` when there are none. -/
def nanvar (ts : List (Option ℚ)) : Option ℚ :=
  if nanVals ts = [] then none else some (varQ (nanVals ts))

/-- `numpy.nanmin`: minimum of the non-`NaN` entries, `NaN` when none. -/
def nanmin (ts : List (Option ℚ)) : Option ℚ := (nanVals ts).min?

/-- `numpy.nanmax`: maximum of the non-`NaN` entries, `NaN` when none. -/
def nanmax (ts : List (Option ℚ)) : Option ℚ := (nanVals ts).max?

/-- The MAT summary stage for one key: `if len(temps) != 0` (a length test
on the *full* list, `NaN` entries included) print the nan-statistics row,
else print "no data for …". -/
def summarize (ts : List (Option ℚ)) : Summary :=
  if ts.length = 0 then .noData
  else .row ⟨nanmin ts, nanmax ts, nanmean ts, nanvar ts⟩

/-- End-to-end summary outcome of the MAT script for one
(date, plot, interval) key over the filtered data list. -/
def summary (dl : List ℤ) (data : List Record) (dateYear plot : ℤ)
    (iv : ℤ × ℤ) : Summary :=
  summarize (collected dl data dateYear plot iv)

end MAT

namespace STemp

/-- A parsed `TIMESTAMP`: `day` counts whole calendar days from an epoch,
`tod` the minutes past midnight (`0 ≤ tod < 1440` for a real timestamp).
Instants are measured in minutes. -/
structure Stamp where
  day : ℤ
  tod : ℤ
deriving DecidableEq, Repr

/-- The instant a stamp denotes, in minutes. -/
def Stamp.instant (t : Stamp) : ℤ := 1440 * t.day + t.tod

/-- What `datetime(int(ts[:4]), int(ts[5:7]), int(ts[8:10]))` builds: the
timestamp truncated to midnight of its calendar day. -/
def Stamp.floorDay (t : Stamp) : ℤ := 1440 * t.day

/-- One data line of the STemp script. -/
structure Record where
  ts : Stamp
  plot : ℤ
  temps : List Tok
deriving DecidableEq, Repr

/-- The Python `fields` list of a record (cf. `MAT.fieldsOf`). -/
def fieldsOf (r : Record) : List Tok := .missing :: .val r.plot :: r.temps

/-- STemp `in_range`: the day-truncated timestamp `d` satisfies
`d >= date - before and d <= date` (`date` the target instant, `before` the
lookback duration, both in minutes). -/
def in_range (t : Stamp) (date before : ℤ) : Bool :=
  decide (date - before ≤ t.floorDay) && decide (t.floorDay ≤ date)

/-- The inner date loop of the STemp filtering stage: `continue` on a date
out of range, `break` (give up on the line) on a plot miss, append and keep
scanning on a hit. -/
def scanDates (pl : List ℤ) (r : Record) (before : ℤ) :
    List ℤ → List Record
  | [] => []
  | date :: rest =>
    if in_range r.ts date before = false then scanDates pl r before rest
    else if r.plot ∈ pl then r :: scanDates pl r before rest
    else []

/-- The STemp filtering loop over all lines. -/
def filterData (sdates : List ℤ) (pl : List ℤ) (before : ℤ)
    (lines : List Record) : List Record :=
  lines.flatMap (fun line => scanDates pl line before sdates)

/-- `in_range(sample, date)` as the STemp *summary* stage calls it: by the
final loop every `sample` in `data` is a plain *list* (the output of
`filter(line)`), but `in_range` subscripts its argument with the string key
`TIMESTAMP` (the 4/21/2020 change made it "work with dictionary" rows,
which only the filtering loop still passes).  A string subscript on a list
raises `TypeError` before anything else is evaluated. -/
def in_range_on_list (_sample : Record) (_date _before : ℤ) :
    Except PyErr Bool :=
  .error .typeError

/-- The `temps` list comprehension of the STemp summary stage: for each
sample of `data`, in order, evaluate the condition
`in_range(sample, date) and int(sample[1]) == plot`, then `average` over
the kept samples; the first exception aborts the whole comprehension (and
with it the run).  Since `in_range_on_list` raises on every list sample,
the comprehension completes only on an empty data list. -/
def collected (dl : List ℤ) (data : List Record) (date before plot : ℤ)
    (iv : ℤ × ℤ) : Except PyErr (List ℚ) :=
  match data with
  | [] => .ok []
  | s :: rest =>
    match in_range_on_list s date before with
    | .error e => .error e
    | .ok b =>
      if b && s.plot == plot then
        match average dl (fieldsOf s) iv with
        | .error e => .error e
        | .ok q =>
          match collected dl rest date before plot iv with
          | .error e => .error e
          | .ok qs => .ok (q :: qs)
      else collected dl rest date before plot iv

/-- The STemp summary for one key: `if len(temps) == 0` report "no data",
else print `min(temps)`, `max(temps)`, `numpy.mean`, `numpy.std`. -/
def summarizeList (v : List ℚ) : Summary :=
  if v.length = 0 then .noData
  else .row ⟨v.min?, v.max?, some (meanQ v), some (varQ v)⟩

/-- End-to-end summary outcome of the STemp script for one key: any
exception from the comprehension — the `TypeError` from `in_range` on a
list sample, or a `ValueError` from a missing sensor token — aborts the
stage before it can print either a row or "no data". -/
def summary (dl : List ℤ) (data : List Record) (date before plot : ℤ)
    (iv : ℤ × ℤ) : Except PyErr Summary :=
  (collected dl data date before plot iv).map summarizeList

end STemp

/-! ### Arithmetic facts about `bisect_left` on the configured depth list -/

lemma bisect_left_depths_neg (d : ℤ) (h : d ≤ 0) : bisect_left depths d = 0 := by
  simp [bisect_left, depths, List.countP_cons, List.countP_nil,
    show ¬((0:ℤ) < d) from by omega, show ¬((5:ℤ) < d) from by omega,
    show ¬((10:ℤ) < d) from by omega, show ¬((20:ℤ) < d) from by omega,
    show ¬((30:ℤ) < d) from by omega, show ¬((40:ℤ) < d) from by omega,
    show ¬((50:ℤ) < d) from by omega, show ¬((100:ℤ) < d) from by omega,
    show ¬((200:ℤ) < d) from by omega]

lemma bisect_left_depths_seg1 (d : ℤ) (h1 : 0 < d) (h2 : d ≤ 5) :
    bisect_left depths d = 1 := by
  simp [bisect_left, depths, List.countP_cons, List.countP_nil,
    show (0:ℤ) < d from by omega,
    show ¬((5:ℤ) < d) from by omega,
    show ¬((10:ℤ) < d) from by omega, show ¬((20:ℤ) < d) from by omega,
    show ¬((30:ℤ) < d) from by omega, show ¬((40:ℤ) < d) from by omega,
    show ¬((50:ℤ) < d) from by omega, show ¬((100:ℤ) < d) from by omega,
    show ¬((200:ℤ) < d) from by omega]

lemma bisect_left_depths_seg2 (d : ℤ) (h1 : 5 < d) (h2 : d ≤ 10) :
    bisect_left depths d = 2 := by
  simp [bisect_left, depths, List.countP_cons, List.countP_nil,
    show (0:ℤ) < d from by omega, show (5:ℤ) < d from by omega,
    show ¬((10:ℤ) < d) from by omega, show ¬((20:ℤ) < d) from by omega,
    show ¬((30:ℤ) < d) from by omega, show ¬((40:ℤ) < d) from by omega,
    show ¬((50:ℤ) < d) from by omega, show ¬((100:ℤ) < d) from by omega,
    show ¬((200:ℤ) < d) from by omega]

lemma bisect_left_depths_seg3 (d : ℤ) (h1 : 10 < d) (h2 : d ≤ 20) :
    bisect_left depths d = 3 := by
  simp [bisect_left, depths, List.countP_cons, List.countP_nil,
    show (0:ℤ) < d from by omega, show (5:ℤ) < d from by omega,
    show (10:ℤ) < d from by omega,
    show ¬((20:ℤ) < d) from by omega,
    show ¬((30:ℤ) < d) from by omega, show ¬((40:ℤ) < d) from by omega,
    show ¬((50:ℤ) < d) from by omega, show ¬((100:ℤ) < d) from by omega,
    show ¬((200:ℤ) < d) from by omega]

lemma bisect_left_depths_seg4 (d : ℤ) (h1 : 20 < d) (h2 : d ≤ 30) :
    bisect_left depths d = 4 := by
  simp [bisect_left, depths, List.countP_cons, List.countP_nil,
    show (0:ℤ) < d from by omega, show (5:ℤ) < d from by omega,
    show (10:ℤ) < d from by omega, show (20:ℤ) < d from by omega,
    show ¬((30:ℤ) < d) from by omega, show ¬((40:ℤ) < d) from by omega,
    show ¬((50:ℤ) < d) from by omega, show ¬((100:ℤ) < d) from by omega,
    show ¬((200:ℤ) < d) from by omega]

lemma bisect_left_depths_seg5 (d : ℤ) (h1 : 30 < d) (h2 : d ≤ 40) :
    bisect_left depths d = 5 := by
  simp [bisect_left, depths, List.countP_cons, List.countP_nil,
    show (0:ℤ) < d from by omega, show (5:ℤ) < d from by omega,
    show (10:ℤ) < d from by omega, show (20:ℤ) < d from by omega,
    show (30:ℤ) < d from by omega,
    show ¬((40:ℤ) < d) from by omega,
    show ¬((50:ℤ) < d) from by omega, show ¬((100:ℤ) < d) from by omega,
    show ¬((200:ℤ) < d) from by omega]

lemma bisect_left_depths_seg6 (d : ℤ) (h1 : 40 < d) (h2 : d ≤ 50) :
    bisect_left depths d = 6 := by
  simp [bisect_left, depths, List.countP_cons, List.countP_nil,
    show (0:ℤ) < d from by omega, show (5:ℤ) < d from by omega,
    show (10:ℤ) < d from by omega, show (20:ℤ) < d from by omega,
    show (30:ℤ) < d from by omega, show (40:ℤ) < d from by omega,
    show ¬((50:ℤ) < d) from by omega, show ¬((100:ℤ) < d) from by omega,
    show ¬((200:ℤ) < d) from by omega]

lemma bisect_left_depths_seg7 (d : ℤ) (h1 : 50 < d) (h2 : d ≤ 100) :
    bisect_left depths d = 7 := by
  simp [bisect_left, depths, List.countP_cons, List.countP_nil,
    show (0:ℤ) < d from by omega, show (5:ℤ) < d from by omega,
    show (10:ℤ) < d from by omega, show (20:ℤ) < d from by omega,
    show (30:ℤ) < d from by omega, show (40:ℤ) < d from by omega,
    show (50:ℤ) < d from by omega,
    show ¬((100:ℤ) < d) from by omega,
    show ¬((200:ℤ) < d) from by omega]

lemma bisect_left_depths_seg8 (d : ℤ) (h1 : 100 < d) (h2 : d ≤ 200) :
    bisect_left depths d = 8 := by
  simp [bisect_left, depths, List.countP_cons, List.countP_nil,
    show (0:ℤ) < d from by omega, show (5:ℤ) < d from by omega,
    show (10:ℤ) < d from by omega, show (20:ℤ) < d from by omega,
    show (30:ℤ) < d from by omega, show (40:ℤ) < d from by omega,
    show (50:ℤ) < d from by omega, show (100:ℤ) < d from by omega,
    show ¬((200:ℤ) < d) from by omega]

lemma bisect_left_depths_gt200 (d : ℤ) (h : 200 < d) :
    bisect_left depths d = 9 := by
  simp [bisect_left, depths, List.countP_cons, List.countP_nil,
    show (0:ℤ) < d from by omega, show (5:ℤ) < d from by omega,
    show (10:ℤ) < d from by omega, show (20:ℤ) < d from by omega,
    show (30:ℤ) < d from by omega, show (40:ℤ) < d from by omega,
    show (50:ℤ) < d from by omega, show (100:ℤ) < d from by omega,
    show (200:ℤ) < d from by omega]
/-! ### Evaluation helpers for `get_depth` -/

namespace MAT

/-- Evaluate the interpolating branch of MAT `get_depth` once the binary
search value and the four list accesses are known. -/
lemma get_depth_ok_MAT (dl : List ℤ) (fields : List Tok) (d : ℤ) (i : ℕ)
    (hb : bisect_left dl d = i) (hd : d ≠ 0) (hlen : i < dl.length)
    (lo hi : ℚ) (di dim1 : ℤ)
    (hlo : pyFloat (pyGet fields (2 + ((i : ℤ) - 1))) = .ok lo)
    (hhi : pyFloat (pyGet fields (2 + (i : ℤ))) = .ok hi)
    (hdi : pyGet dl (i : ℤ) = some di)
    (hdim1 : pyGet dl ((i : ℤ) - 1) = some dim1) :
    get_depth dl fields d =
      .ok (.ofNum (lo + ((d : ℚ) - (dim1 : ℚ)) *
        ((hi - lo) / ((di : ℚ) - (dim1 : ℚ))))) := by
  simp only [get_depth, hb, if_neg hd,
    if_neg (show ¬(dl.length ≤ i) from by omega), hlo, hhi, hdi, hdim1]

end MAT

namespace STemp

/-- Evaluate the interpolating branch of STemp `get_depth`. -/
lemma get_depth_ok_STemp (dl : List ℤ) (fields : List Tok) (d : ℤ) (i : ℕ)
    (hb : bisect_left dl d = i) (hd : d ≠ 0) (hpos : 0 ≤ d)
    (hlen : i < dl.length) (lo hi : ℚ) (di dim1 : ℤ)
    (hlo : pyFloat (pyGet fields (2 + ((i : ℤ) - 1))) = .ok lo)
    (hhi : pyFloat (pyGet fields (2 + (i : ℤ))) = .ok hi)
    (hdi : pyGet dl (i : ℤ) = some di)
    (hdim1 : pyGet dl ((i : ℤ) - 1) = some dim1) :
    get_depth dl fields d =
      .ok (.ofNum (lo + ((d : ℚ) - (dim1 : ℚ)) *
        ((hi - lo) / ((di : ℚ) - (dim1 : ℚ))))) := by
  simp only [get_depth, hb, if_neg hd,
    if_neg (show ¬(d < 0 ∨ dl.length ≤ i) from by push_neg; omega),
    hlo, hhi, hdi, hdim1]

end STemp

/-! ### Claim theorems -/

/-- C8: for every reading whose shallowest (index-2) field is a numeric
token `t`, `get_depth` at depth 0 — the shallowest configured depth — takes
the `depth == 0` shortcut of both variants and returns the raw field
itself (`PyVal.ofStr`), whose numeric content is exactly `t`: no
interpolation arithmetic touches the value. -/
theorem C8_depth_zero_returns_raw_temperature (fields : List Tok) (t : ℚ)
    (h : pyGet fields 2 = some (.val t)) :
    MAT.get_depth depths fields 0 = .ok (.ofStr (.val t)) ∧
    STemp.get_depth depths fields 0 = .ok (.ofStr (.val t)) ∧
    PyVal.toQ (.ofStr (.val t)) = some t := by
  refine ⟨?_, ?_, rfl⟩ <;> simp [MAT.get_depth, STemp.get_depth, h]

/-- Witness for C8 at a concrete reading (surface temperature 21). -/
theorem C8_depth_zero_returns_raw_temperature_witness :
    pyGet [Tok.missing, Tok.val 4, Tok.val 21] 2 = some (.val 21) ∧
    (MAT.get_depth depths [Tok.missing, Tok.val 4, Tok.val 21] 0 =
        .ok (.ofStr (.val 21)) ∧
      STemp.get_depth depths [Tok.missing, Tok.val 4, Tok.val 21] 0 =
        .ok (.ofStr (.val 21)) ∧
      PyVal.toQ (.ofStr (.val 21)) = some 21) :=
  ⟨by decide, C8_depth_zero_returns_raw_temperature _ _ (by decide)⟩

/-- C5: for every depth strictly deeper than the deepest configured sensor
(200), `bisect_left` returns `len(depths)` and both variants raise the
range `ValueError` — the depth is never clamped to the deepest sensor. -/
theorem C5_beyond_deepest_sensor_fails (d : ℤ) (hd : 200 < d)
    (fields : List Tok) :
    MAT.get_depth depths fields d = .error .outOfRange ∧
    STemp.get_depth depths fields d = .error .outOfRange := by
  have hb : bisect_left depths d = 9 := bisect_left_depths_gt200 d hd
  constructor <;>
    simp [MAT.get_depth, STemp.get_depth, hb,
      show depths.length = 9 from rfl, show ¬(d = 0) from by omega]

/-- Witness for C5 at depth 201. -/
theorem C5_beyond_deepest_sensor_fails_witness :
    (200 : ℤ) < 201 ∧
    (MAT.get_depth depths [] 201 = .error .outOfRange ∧
      STemp.get_depth depths [] 201 = .error .outOfRange) :=
  ⟨by decide, C5_beyond_deepest_sensor_fails 201 (by decide) []⟩

/-- C10: in the MAT variant a negative target depth is not rejected: the
binary search returns 0, the "lower" temperature is read from `fields[1]`
(the plot identifier, index `2 + (0 - 1)`), the "lower" depth from
`depths[-1] = 200` by Python negative indexing, and a numeric value
interpolated from the plot identifier is returned.  Only the STemp variant
guards `depth < 0` with a `ValueError`. -/
theorem C10_negative_depth_uses_plot_field (d : ℤ) (hd : d < 0)
    (fields : List Tok) (p t0 : ℚ)
    (hp : pyGet fields 1 = some (.val p))
    (ht : pyGet fields 2 = some (.val t0)) :
    bisect_left depths d = 0 ∧
    MAT.get_depth depths fields d =
      .ok (.ofNum (p + ((d : ℚ) - ((200 : ℤ) : ℚ)) *
        ((t0 - p) / (((0 : ℤ) : ℚ) - ((200 : ℤ) : ℚ))))) ∧
    STemp.get_depth depths fields d = .error .outOfRange := by
  have hb : bisect_left depths d = 0 := bisect_left_depths_neg d (by omega)
  refine ⟨hb, ?_, ?_⟩
  · exact MAT.get_depth_ok_MAT depths fields d 0 hb (by omega) (by decide)
      p t0 0 200
      (by rw [show (2 + (((0 : ℕ) : ℤ) - 1)) = 1 from by norm_num, hp]; rfl)
      (by rw [show (2 + ((0 : ℕ) : ℤ)) = 2 from by norm_num, ht]; rfl)
      (by decide) (by decide)
  · simp [STemp.get_depth, hb, show ¬(d = 0) from by omega, hd]

/-- Witness for C10 at depth −3 on a concrete reading with plot 4 and
surface temperature 10: the MAT variant "interpolates" a value from the
plot identifier instead of failing. -/
theorem C10_negative_depth_uses_plot_field_witness :
    (-3 : ℤ) < 0 ∧
    (bisect_left depths (-3) = 0 ∧
      MAT.get_depth depths [Tok.missing, Tok.val 4, Tok.val 10] (-3) =
        .ok (.ofNum (4 + (((-3 : ℤ) : ℚ) - ((200 : ℤ) : ℚ)) *
          ((10 - 4) / (((0 : ℤ) : ℚ) - ((200 : ℤ) : ℚ))))) ∧
      STemp.get_depth depths [Tok.missing, Tok.val 4, Tok.val 10] (-3) =
        .error .outOfRange) :=
  ⟨by decide,
    C10_negative_depth_uses_plot_field (-3) (by decide) _ 4 10
      (by decide) (by decide)⟩
/-- On the configured depth list, an index `j` with
`depths[j-1] < d <= depths[j]` can only be the one `bisect_left` returns. -/
lemma bisect_left_depths_unique (d : ℤ) (j : ℕ) (hj0 : 0 < j)
    (hj9 : j < depths.length) (a b : ℤ)
    (hja : depths.get? (j - 1) = some a) (hjb : depths.get? j = some b)
    (hlt : a < d) (hle : d ≤ b) : j = bisect_left depths d := by
  rw [show depths.length = 9 from rfl] at hj9
  interval_cases j
  · simp [depths] at hja hjb
    exact (bisect_left_depths_seg1 d (by omega) (by omega)).symm
  · simp [depths] at hja hjb
    exact (bisect_left_depths_seg2 d (by omega) (by omega)).symm
  · simp [depths] at hja hjb
    exact (bisect_left_depths_seg3 d (by omega) (by omega)).symm
  · simp [depths] at hja hjb
    exact (bisect_left_depths_seg4 d (by omega) (by omega)).symm
  · simp [depths] at hja hjb
    exact (bisect_left_depths_seg5 d (by omega) (by omega)).symm
  · simp [depths] at hja hjb
    exact (bisect_left_depths_seg6 d (by omega) (by omega)).symm
  · simp [depths] at hja hjb
    exact (bisect_left_depths_seg7 d (by omega) (by omega)).symm
  · simp [depths] at hja hjb
    exact (bisect_left_depths_seg8 d (by omega) (by omega)).symm

/-- C4: for every target depth `0 < d ≤ 200`, `bisect_left` locates the
unique index `i` with `depths[i-1] < d ≤ depths[i]`, and when the two
neighbouring temperature fields hold numeric tokens `lo` and `hi`, both
variants of `get_depth` return
`lo + (d - depths[i-1]) * ((hi - lo) / (depths[i] - depths[i-1]))`. -/
theorem C4_interior_depth_interpolates (d : ℤ) (h1 : 0 < d) (h2 : d ≤ 200)
    (fields : List Tok) (lo hi : ℚ)
    (hlo : pyGet fields (2 + ((bisect_left depths d : ℤ) - 1)) =
      some (.val lo))
    (hhi : pyGet fields (2 + (bisect_left depths d : ℤ)) = some (.val hi)) :
    ∃ dim1 di : ℤ,
      pyGet depths ((bisect_left depths d : ℤ) - 1) = some dim1 ∧
      pyGet depths (bisect_left depths d : ℤ) = some di ∧
      dim1 < d ∧ d ≤ di ∧
      (∀ j : ℕ, 0 < j → j < depths.length → ∀ a b : ℤ,
        depths.get? (j - 1) = some a → depths.get? j = some b →
        a < d → d ≤ b → j = bisect_left depths d) ∧
      MAT.get_depth depths fields d =
        .ok (.ofNum (lo + ((d : ℚ) - (dim1 : ℚ)) *
          ((hi - lo) / ((di : ℚ) - (dim1 : ℚ))))) ∧
      STemp.get_depth depths fields d =
        .ok (.ofNum (lo + ((d : ℚ) - (dim1 : ℚ)) *
          ((hi - lo) / ((di : ℚ) - (dim1 : ℚ))))) := by
  have hseg : (0 < d ∧ d ≤ 5) ∨ (5 < d ∧ d ≤ 10) ∨ (10 < d ∧ d ≤ 20) ∨
      (20 < d ∧ d ≤ 30) ∨ (30 < d ∧ d ≤ 40) ∨ (40 < d ∧ d ≤ 50) ∨
      (50 < d ∧ d ≤ 100) ∨ (100 < d ∧ d ≤ 200) := by omega
  have key : ∃ (k : ℕ) (dim1 di : ℤ), bisect_left depths d = k ∧
      0 < k ∧ k < 9 ∧ pyGet depths ((k : ℤ) - 1) = some dim1 ∧
      pyGet depths (k : ℤ) = some di ∧ dim1 < d ∧ d ≤ di := by
    rcases hseg with h|h|h|h|h|h|h|h
    · exact ⟨1, 0, 5, bisect_left_depths_seg1 d h.1 h.2, by omega, by omega,
        by decide, by decide, by omega, by omega⟩
    · exact ⟨2, 5, 10, bisect_left_depths_seg2 d h.1 h.2, by omega, by omega,
        by decide, by decide, by omega, by omega⟩
    · exact ⟨3, 10, 20, bisect_left_depths_seg3 d h.1 h.2, by omega, by omega,
        by decide, by decide, by omega, by omega⟩
    · exact ⟨4, 20, 30, bisect_left_depths_seg4 d h.1 h.2, by omega, by omega,
        by decide, by decide, by omega, by omega⟩
    · exact ⟨5, 30, 40, bisect_left_depths_seg5 d h.1 h.2, by omega, by omega,
        by decide, by decide, by omega, by omega⟩
    · exact ⟨6, 40, 50, bisect_left_depths_seg6 d h.1 h.2, by omega, by omega,
        by decide, by decide, by omega, by omega⟩
    · exact ⟨7, 50, 100, bisect_left_depths_seg7 d h.1 h.2, by omega,
        by omega, by decide, by decide, by omega, by omega⟩
    · exact ⟨8, 100, 200, bisect_left_depths_seg8 d h.1 h.2, by omega,
        by omega, by decide, by decide, by omega, by omega⟩
  obtain ⟨k, dim1, di, hk, hk0, hk9, hdm, hdi, hltd, hled⟩ := key
  rw [hk] at hlo hhi
  refine ⟨dim1, di, by rw [hk]; exact hdm, by rw [hk]; exact hdi, hltd, hled,
    fun j hj0 hj9 a b hja hjb halt hble =>
      bisect_left_depths_unique d j hj0 hj9 a b hja hjb halt hble, ?_, ?_⟩
  · exact MAT.get_depth_ok_MAT depths fields d k hk (by omega)
      (by rw [show depths.length = 9 from rfl]; omega) lo hi di dim1
      (by rw [hlo]; rfl) (by rw [hhi]; rfl) hdi hdm
  · exact STemp.get_depth_ok_STemp depths fields d k hk (by omega) (by omega)
      (by rw [show depths.length = 9 from rfl]; omega) lo hi di dim1
      (by rw [hlo]; rfl) (by rw [hhi]; rfl) hdi hdm

/-- Witness for C4 at depth 3 with neighbouring temperatures 10 and 12. -/
theorem C4_interior_depth_interpolates_witness :
    (0 : ℤ) < 3 ∧ (3 : ℤ) ≤ 200 ∧
    pyGet [Tok.missing, Tok.val 4, Tok.val 10, Tok.val 12]
      (2 + ((bisect_left depths 3 : ℤ) - 1)) = some (.val 10) ∧
    pyGet [Tok.missing, Tok.val 4, Tok.val 10, Tok.val 12]
      (2 + (bisect_left depths 3 : ℤ)) = some (.val 12) ∧
    (∃ dim1 di : ℤ,
      pyGet depths ((bisect_left depths 3 : ℤ) - 1) = some dim1 ∧
      pyGet depths (bisect_left depths 3 : ℤ) = some di ∧
      dim1 < 3 ∧ (3 : ℤ) ≤ di ∧
      (∀ j : ℕ, 0 < j → j < depths.length → ∀ a b : ℤ,
        depths.get? (j - 1) = some a → depths.get? j = some b →
        a < 3 → (3 : ℤ) ≤ b → j = bisect_left depths 3) ∧
      MAT.get_depth depths [Tok.missing, Tok.val 4, Tok.val 10, Tok.val 12] 3 =
        .ok (.ofNum (10 + (((3 : ℤ) : ℚ) - (dim1 : ℚ)) *
          ((12 - 10) / ((di : ℚ) - (dim1 : ℚ))))) ∧
      STemp.get_depth depths [Tok.missing, Tok.val 4, Tok.val 10, Tok.val 12] 3 =
        .ok (.ofNum (10 + (((3 : ℤ) : ℚ) - (dim1 : ℚ)) *
          ((12 - 10) / ((di : ℚ) - (dim1 : ℚ)))))) :=
  ⟨by decide, by decide, by decide, by decide,
    C4_interior_depth_interpolates 3 (by decide) (by decide) _ 10 12
      (by decide) (by decide)⟩
/-! ### Behaviour of `average` -/

/-- For strictly positive depths the two `get_depth` variants agree (their
range guards differ only at `depth < 0`). -/
lemma get_depth_agree (dl : List ℤ) (fields : List Tok) (d : ℤ)
    (hd : 0 < d) :
    STemp.get_depth dl fields d = MAT.get_depth dl fields d := by
  simp only [STemp.get_depth, MAT.get_depth,
    if_neg (show ¬(d = 0) from by omega)]
  split_ifs with h1 h2 <;> try rfl
  · omega
  · omega

/-- Membership in `rangeZ`. -/
lemma mem_rangeZ {a b d : ℤ} : d ∈ rangeZ a b ↔ a ≤ d ∧ d ≤ b := by
  unfold rangeZ
  constructor
  · intro h
    obtain ⟨k, hk, hkd⟩ := List.mem_map.1 h
    rw [List.mem_range] at hk
    omega
  · intro h
    refine List.mem_map.2 ⟨(d - a).toNat, ?_, ?_⟩
    · rw [List.mem_range]; omega
    · omega

namespace MAT

/-- If every depth in the list yields a numeric sample, the MAT summation
loop returns the accumulated sum. -/
lemma sumTemps_ok_MAT (dl : List ℤ) (fields : List Tok) (v : ℤ → ℚ)
    (ds : List ℤ) :
    ∀ acc : ℚ, (∀ d ∈ ds, get_depth dl fields d = .ok (.ofNum (v d))) →
      sumTemps dl fields ds acc = some (acc + (ds.map v).sum) := by
  induction ds with
  | nil => intro acc _; simp [sumTemps]
  | cons x xs ih =>
    intro acc h
    rw [sumTemps, h x (by simp)]
    show sumTemps dl fields xs (acc + v x) = _
    rw [ih (acc + v x) (fun d hd => h d (by simp [hd]))]
    simp only [List.map_cons, List.sum_cons, Option.some.injEq]
    ring

/-- If any depth in the list raises in `get_depth`, the MAT summation loop
is aborted by the bare `except:` and yields `None`. -/
lemma sumTemps_none (dl : List ℤ) (fields : List Tok) (ds : List ℤ)
    (d : ℤ) (hd : d ∈ ds) (e : PyErr)
    (he : get_depth dl fields d = .error e) :
    ∀ acc : ℚ, sumTemps dl fields ds acc = none := by
  induction ds with
  | nil => cases hd
  | cons x xs ih =>
    intro acc
    rw [sumTemps]
    cases hx : get_depth dl fields x with
    | error e2 => rfl
    | ok val =>
      cases val with
      | ofStr f => rfl
      | ofNum q =>
        have hxs : d ∈ xs := by
          rcases List.mem_cons.1 hd with rfl | hxs
          · rw [hx] at he; simp at he
          · exact hxs
        exact ih hxs (acc + q)

end MAT

namespace STemp

/-- If every depth in the list yields a numeric sample, the STemp summation
loop returns the accumulated sum. -/
lemma sumTemps_ok_STemp (dl : List ℤ) (fields : List Tok) (v : ℤ → ℚ)
    (ds : List ℤ) :
    ∀ acc : ℚ, (∀ d ∈ ds, get_depth dl fields d = .ok (.ofNum (v d))) →
      sumTemps dl fields ds acc = .ok (acc + (ds.map v).sum) := by
  induction ds with
  | nil => intro acc _; simp [sumTemps]
  | cons x xs ih =>
    intro acc h
    rw [sumTemps, h x (by simp)]
    show sumTemps dl fields xs (acc + v x) = _
    rw [ih (acc + v x) (fun d hd => h d (by simp [hd]))]
    simp only [List.map_cons, List.sum_cons, Except.ok.injEq]
    ring

/-- If any depth in the list raises in `get_depth`, the STemp summation
loop re-raises some exception (the first one encountered). -/
lemma sumTemps_err (dl : List ℤ) (fields : List Tok) (ds : List ℤ)
    (d : ℤ) (hd : d ∈ ds) (e : PyErr)
    (he : get_depth dl fields d = .error e) :
    ∀ acc : ℚ, ∃ e2, sumTemps dl fields ds acc = .error e2 := by
  induction ds with
  | nil => cases hd
  | cons x xs ih =>
    intro acc
    rw [sumTemps]
    cases hx : get_depth dl fields x with
    | error e2 => exact ⟨e2, rfl⟩
    | ok val =>
      cases val with
      | ofStr f => exact ⟨.typeError, rfl⟩
      | ofNum q =>
        have hxs : d ∈ xs := by
          rcases List.mem_cons.1 hd with rfl | hxs
          · rw [hx] at he; simp at he
          · exact hxs
        exact ih hxs (acc + q)

end STemp
/-- The spec's end-to-end interpolation example, as the per-depth sample
values: sensor depths `[0, 5, 10]`, temperatures `10, 12, 16`. -/
def exV : ℤ → ℚ := fun d =>
  if d ≤ 5 then 10 + ((d : ℚ) - 0) * ((12 - 10) / (5 - 0))
  else 12 + ((d : ℚ) - 5) * ((16 - 12) / (10 - 5))

/-- A deployment-shaped reading whose depth-5 sensor token (index 3) is
missing. -/
def exMissing : List Tok :=
  [.missing, .val 4, .val 1, .missing, .val 3, .val 4, .val 5, .val 6,
   .val 7, .val 8, .val 9]

/-- C3 (amended: lower bound at least 1): for every interval `(a, b)` with
`1 ≤ a ≤ b` all of whose unit-depth samples succeed with numeric values
`v d`, both variants of `average` return the arithmetic mean of the
`b − a + 1` samples at the integer depths of `[a, b]`. -/
theorem C3_average_is_mean_of_unit_samples (dl : List ℤ) (fields : List Tok)
    (a b : ℤ) (h1 : 1 ≤ a) (_hab : a ≤ b) (v : ℤ → ℚ)
    (hv : ∀ d, a ≤ d → d ≤ b →
      MAT.get_depth dl fields d = .ok (.ofNum (v d))) :
    MAT.average dl fields (a, b) =
      some (((rangeZ a b).map v).sum / ((b : ℚ) - (a : ℚ) + 1)) ∧
    STemp.average dl fields (a, b) =
      .ok (((rangeZ a b).map v).sum / ((b : ℚ) - (a : ℚ) + 1)) := by
  have hv2 : ∀ d ∈ rangeZ a b,
      MAT.get_depth dl fields d = .ok (.ofNum (v d)) :=
    fun d hd => hv d (mem_rangeZ.1 hd).1 (mem_rangeZ.1 hd).2
  have hv3 : ∀ d ∈ rangeZ a b,
      STemp.get_depth dl fields d = .ok (.ofNum (v d)) := by
    intro d hd
    have had := (mem_rangeZ.1 hd).1
    rw [get_depth_agree dl fields d (by omega)]
    exact hv2 d hd
  constructor
  · show (MAT.sumTemps dl fields (rangeZ a b) 0).map _ = _
    rw [MAT.sumTemps_ok_MAT dl fields v (rangeZ a b) 0 hv2]
    rw [Option.map_some', zero_add]
  · show (STemp.sumTemps dl fields (rangeZ a b) 0).map _ = _
    rw [STemp.sumTemps_ok_STemp dl fields v (rangeZ a b) 0 hv3]
    show Except.ok _ = _
    rw [zero_add]

/-- C3 counterexample to the unamended claim: at interval `(0, 0)` the only
unit-depth sample *succeeds* (the `depth == 0` branch returns the raw
surface token, numeric content 21), yet MAT `average` returns `None` — the
string is added to the integer accumulator, the `TypeError` is caught and
`None` returned — and STemp `average` raises, instead of either returning
the one-sample mean 21. -/
theorem C3_average_zero_interval_counterexample :
    MAT.get_depth depths [Tok.missing, Tok.val 4, Tok.val 21] 0 =
      .ok (.ofStr (.val 21)) ∧
    PyVal.toQ (.ofStr (.val 21)) = some 21 ∧
    MAT.average depths [Tok.missing, Tok.val 4, Tok.val 21] (0, 0) = none ∧
    STemp.average depths [Tok.missing, Tok.val 4, Tok.val 21] (0, 0) =
      .error .typeError := by
  exact ⟨rfl, rfl, rfl, rfl⟩

/-- Witness for C3 on the spec's example: depths `[0,5,10]`, temperatures
`10, 12, 16`, interval `(1, 10)`; the sample at depth 3 is 11.2 = 56/5,
the sample at depth 8 is 14.4 = 72/5, and the interval average is
12.8 = 64/5. -/
theorem C3_average_is_mean_of_unit_samples_witness :
    (1 : ℤ) ≤ 1 ∧ (1 : ℤ) ≤ 10 ∧
    (∀ d : ℤ, 1 ≤ d → d ≤ 10 →
      MAT.get_depth [0, 5, 10]
        [Tok.missing, Tok.val 4, Tok.val 10, Tok.val 12, Tok.val 16] d =
        .ok (.ofNum (exV d))) ∧
    (MAT.average [0, 5, 10]
        [Tok.missing, Tok.val 4, Tok.val 10, Tok.val 12, Tok.val 16]
        (1, 10) =
        some (((rangeZ 1 10).map exV).sum / ((10 : ℚ) - (1 : ℚ) + 1)) ∧
      STemp.average [0, 5, 10]
        [Tok.missing, Tok.val 4, Tok.val 10, Tok.val 12, Tok.val 16]
        (1, 10) =
        .ok (((rangeZ 1 10).map exV).sum / ((10 : ℚ) - (1 : ℚ) + 1))) ∧
    exV 3 = 56 / 5 ∧ exV 8 = 72 / 5 ∧
    ((rangeZ 1 10).map exV).sum / ((10 : ℚ) - (1 : ℚ) + 1) = 64 / 5 := by
  have hv : ∀ d : ℤ, 1 ≤ d → d ≤ 10 →
      MAT.get_depth [0, 5, 10]
        [Tok.missing, Tok.val 4, Tok.val 10, Tok.val 12, Tok.val 16] d =
        .ok (.ofNum (exV d)) := by
    intro d hd1 hd2
    interval_cases d <;>
      norm_num [MAT.get_depth, bisect_left, List.countP_cons,
        List.countP_nil, pyGet, pyFloat, exV, List.get?]
  refine ⟨by norm_num, by norm_num, hv,
    C3_average_is_mean_of_unit_samples [0, 5, 10]
      [Tok.missing, Tok.val 4, Tok.val 10, Tok.val 12, Tok.val 16]
      1 10 (by norm_num) (by norm_num) exV hv,
    by norm_num [exV], by norm_num [exV], ?_⟩
  rw [show rangeZ 1 10 = [1, 2, 3, 4, 5, 6, 7, 8, 9, 10] from by decide]
  norm_num [exV]

/-- C2 (amended): for every configured interval, if any unit-depth sample
raises in `get_depth`, then MAT `average` returns `None` (the bare
`except:` converts the failure to an absent value without aborting) — but
STemp `average` re-raises the exception to its caller instead of
producing an absent value. -/
theorem C2_failed_sample_invalidates_interval (fields : List Tok)
    (iv : ℤ × ℤ) (hiv : iv ∈ intervals)
    (hfail : ∃ d, iv.1 ≤ d ∧ d ≤ iv.2 ∧
      ∃ e, MAT.get_depth depths fields d = .error e) :
    MAT.average depths fields iv = none ∧
    ∃ e2, STemp.average depths fields iv = .error e2 := by
  obtain ⟨d, hd1, hd2, e, he⟩ := hfail
  have hd0 : 1 ≤ iv.1 := by
    fin_cases hiv <;> norm_num
  have hmem : d ∈ rangeZ iv.1 iv.2 := mem_rangeZ.2 ⟨hd1, hd2⟩
  have he2 : STemp.get_depth depths fields d = .error e := by
    rw [get_depth_agree depths fields d (by omega)]
    exact he
  constructor
  · show (MAT.sumTemps depths fields (rangeZ iv.1 iv.2) 0).map _ = _
    rw [MAT.sumTemps_none depths fields (rangeZ iv.1 iv.2) d hmem e he 0]
    rfl
  · obtain ⟨e3, he3⟩ :=
      STemp.sumTemps_err depths fields (rangeZ iv.1 iv.2) d hmem e he2 0
    refine ⟨e3, ?_⟩
    show (STemp.sumTemps depths fields (rangeZ iv.1 iv.2) 0).map _ = _
    rw [he3]
    rfl

/-- C2 counterexample to the "never aborts" clause: on a reading whose
depth-5 sensor token is missing, the STemp variant's `average` at the
configured interval `(1, 10)` does not return an absent value — the
`ValueError` from `float('')` escapes `average` (and would abort the
run), while the MAT variant returns `None`. -/
theorem C2_stemp_average_propagates_error_counterexample :
    ((1 : ℤ), (10 : ℤ)) ∈ intervals ∧
    STemp.get_depth depths exMissing 5 = .error .missingSample ∧
    MAT.average depths exMissing (1, 10) = none ∧
    STemp.average depths exMissing (1, 10) = .error .missingSample := by
  exact ⟨by decide, rfl, rfl, rfl⟩

/-- Witness for C2 on the same reading: the sample at depth 5 fails, MAT
`average` is absent and STemp `average` errors. -/
theorem C2_failed_sample_invalidates_interval_witness :
    ((1 : ℤ), (10 : ℤ)) ∈ intervals ∧
    (∃ d, (1 : ℤ) ≤ d ∧ d ≤ (10 : ℤ) ∧
      ∃ e, MAT.get_depth depths exMissing d = .error e) ∧
    (MAT.average depths exMissing (1, 10) = none ∧
      ∃ e2, STemp.average depths exMissing (1, 10) = .error e2) :=
  ⟨by decide, ⟨5, by decide, by decide, .missingSample, rfl⟩,
    C2_failed_sample_invalidates_interval exMissing (1, 10) (by decide)
      ⟨5, by decide, by decide, .missingSample, rfl⟩⟩
/-! ### Filtering -/

namespace STemp

/-- Characterisation of the STemp date loop: a record is emitted (one copy
per in-range date) exactly when some sampling date is in range and the
plot is allowed; the `break` on a plot miss cannot fire before an in-range
date is seen. -/
lemma mem_scanDates (pl : List ℤ) (r s : Record) (before : ℤ)
    (dates : List ℤ) :
    s ∈ scanDates pl r before dates ↔
      s = r ∧ r.plot ∈ pl ∧ ∃ dt ∈ dates, in_range r.ts dt before = true := by
  induction dates with
  | nil => simp [scanDates]
  | cons dt rest ih =>
    rw [scanDates]
    by_cases h1 : in_range r.ts dt before = false
    · rw [if_pos h1]
      constructor
      · intro hs
        obtain ⟨rfl, hp, dt2, hdt2, hr⟩ := ih.1 hs
        exact ⟨rfl, hp, dt2, by simp [hdt2], hr⟩
      · rintro ⟨rfl, hp, dt2, hdt2, hr⟩
        apply ih.2
        refine ⟨rfl, hp, dt2, ?_, hr⟩
        rcases List.mem_cons.1 hdt2 with rfl | h
        · simp [hr] at h1
        · exact h
    · have h1t : in_range r.ts dt before = true := by
        revert h1; cases in_range r.ts dt before <;> simp
      rw [if_neg h1]
      by_cases hp : r.plot ∈ pl
      · rw [if_pos hp]
        simp only [List.mem_cons]
        constructor
        · rintro (rfl | hs)
          · exact ⟨rfl, hp, dt, by simp, h1t⟩
          · obtain ⟨rfl, hp2, dt2, hdt2, hr⟩ := ih.1 hs
            exact ⟨rfl, hp2, dt2, by simp [hdt2], hr⟩
        · rintro ⟨rfl, _, _⟩
          left; rfl
      · rw [if_neg hp]
        constructor
        · intro hs; cases hs
        · rintro ⟨rfl, hp2, _⟩
          exact absurd hp2 hp

end STemp

/-- C9: a record is retained by the filtering stage iff its timestamp
satisfies the variant's temporal predicate for some configured sampling
date and its plot identifier is in the allow-list — for the MAT loop
(exact calendar-year match) and the STemp loop (lookback window with
`continue`/`break`) alike; both predicates are pure. -/
theorem C9_record_retained_iff_both_predicates
    (lines : List MAT.Record) (sdates : List ℤ) (pl : List ℤ)
    (r : MAT.Record) (nlines : List STemp.Record) (ndates : List ℤ)
    (before : ℤ) (s : STemp.Record) :
    (r ∈ MAT.filterData sdates pl lines ↔
      r ∈ lines ∧ (∃ dy ∈ sdates, MAT.is_year r.yr dy = true) ∧
        r.plot ∈ pl) ∧
    (s ∈ STemp.filterData ndates pl before nlines ↔
      s ∈ nlines ∧ (∃ dt ∈ ndates, STemp.in_range s.ts dt before = true) ∧
        s.plot ∈ pl) := by
  constructor
  · simp only [MAT.filterData, List.mem_flatMap]
    constructor
    · rintro ⟨line, hline, dy, hdy, hr⟩
      by_cases h1 : MAT.is_year line.yr dy = true
      · rw [if_pos h1] at hr
        by_cases h2 : line.plot ∈ pl
        · rw [if_pos h2] at hr
          rcases List.mem_singleton.1 hr with rfl
          exact ⟨hline, ⟨dy, hdy, h1⟩, h2⟩
        · rw [if_neg h2] at hr; cases hr
      · rw [if_neg h1] at hr; cases hr
    · rintro ⟨hmem, ⟨dy, hdy, hy⟩, hp⟩
      exact ⟨r, hmem, dy, hdy, by rw [if_pos hy, if_pos hp]; simp⟩
  · simp only [STemp.filterData, List.mem_flatMap]
    constructor
    · rintro ⟨line, hline, hs⟩
      obtain ⟨rfl, hp, dt, hdt, hr⟩ := (STemp.mem_scanDates pl line s before ndates).1 hs
      exact ⟨hline, ⟨dt, hdt, hr⟩, hp⟩
    · rintro ⟨hmem, ⟨dt, hdt, hr⟩, hp⟩
      exact ⟨s, hmem,
        (STemp.mem_scanDates pl s s before ndates).2 ⟨rfl, hp, dt, hdt, hr⟩⟩

/-- Witness for C9 on a two-record instance of each loop. -/
theorem C9_record_retained_iff_both_predicates_witness :
    (⟨2016, 4, []⟩ ∈ MAT.filterData [2016] plots [⟨2016, 4, []⟩, ⟨2015, 4, []⟩] ↔
      (⟨2016, 4, []⟩ : MAT.Record) ∈ [(⟨2016, 4, []⟩ : MAT.Record), ⟨2015, 4, []⟩] ∧
        (∃ dy ∈ [(2016 : ℤ)], MAT.is_year 2016 dy = true) ∧ (4 : ℤ) ∈ plots) ∧
    (⟨⟨0, 0⟩, 4, []⟩ ∈ STemp.filterData [(960 : ℤ)] plots 2880 [⟨⟨0, 0⟩, 4, []⟩] ↔
      (⟨⟨0, 0⟩, 4, []⟩ : STemp.Record) ∈ [(⟨⟨0, 0⟩, 4, []⟩ : STemp.Record)] ∧
        (∃ dt ∈ [(960 : ℤ)], STemp.in_range ⟨0, 0⟩ dt 2880 = true) ∧
        (4 : ℤ) ∈ plots) :=
  C9_record_retained_iff_both_predicates [⟨2016, 4, []⟩, ⟨2015, 4, []⟩]
    [2016] plots ⟨2016, 4, []⟩ [⟨⟨0, 0⟩, 4, []⟩] [960] 2880 ⟨⟨0, 0⟩, 4, []⟩

/-- C7 (amended): the STemp lookback predicate compares the *day-truncated*
timestamp against the window: `in_range` holds iff the record's instant
minus its time of day (midnight of its calendar day) lies in
`[date − before, date]`, not iff the instant itself does. -/
theorem C7_lookback_window_on_truncated_timestamp (t : STemp.Stamp)
    (date before : ℤ) :
    STemp.in_range t date before = true ↔
      (date - before ≤ STemp.Stamp.instant t - t.tod ∧
        STemp.Stamp.instant t - t.tod ≤ date) := by
  simp only [STemp.in_range, STemp.Stamp.instant, STemp.Stamp.floorDay,
    Bool.and_eq_true, decide_eq_true_eq]
  omega

/-- C7 counterexample to the claim as stated: with the sampling instant at
16:00 (960 minutes) and a two-day lookback, a record stamped 18:00 the
same day (instant 1080) is outside the closed window
`[960 − 2880, 960]`, yet `in_range` accepts it; and a record stamped
16:40 two days before (instant −1880) is inside the window, yet
`in_range` rejects it. -/
theorem C7_lookback_window_counterexample :
    STemp.in_range ⟨0, 1080⟩ 960 2880 = true ∧
    ¬(960 - 2880 ≤ STemp.Stamp.instant ⟨0, 1080⟩ ∧
        STemp.Stamp.instant ⟨0, 1080⟩ ≤ 960) ∧
    STemp.in_range ⟨-2, 1000⟩ 960 2880 = false ∧
    (960 - 2880 ≤ STemp.Stamp.instant ⟨-2, 1000⟩ ∧
      STemp.Stamp.instant ⟨-2, 1000⟩ ≤ 960) := by
  refine ⟨by decide, by decide, by decide, by decide⟩
/-! ### Summary statistics -/

/-- Order-theoretic and moment facts about a non-empty group of rationals:
its `min?`/`max?` are attained bounds, and `meanQ`/`varQ` satisfy the
simple-moment identities with denominator equal to the count. -/
lemma stats_of_ne_nil (v : List ℚ) (hv : v ≠ []) :
    ∃ mn mx, v.min? = some mn ∧ v.max? = some mx ∧
      mn ∈ v ∧ (∀ x ∈ v, mn ≤ x) ∧ mx ∈ v ∧ (∀ x ∈ v, x ≤ mx) ∧
      meanQ v * (v.length : ℚ) = v.sum ∧
      varQ v * (v.length : ℚ) =
        (v.map (fun x => (x - meanQ v) ^ 2)).sum ∧
      Real.sqrt ((varQ v : ℚ) : ℝ) * Real.sqrt ((varQ v : ℚ) : ℝ) =
        ((varQ v : ℚ) : ℝ) := by
  have hlen : ((v.length : ℚ)) ≠ 0 := by
    have : v.length ≠ 0 := fun h0 => hv (List.length_eq_zero.1 h0)
    exact_mod_cast this
  cases hmin : v.min? with
  | none => exact absurd (List.min?_eq_none_iff.1 hmin) hv
  | some mn =>
    cases hmax : v.max? with
    | none =>
      exact absurd ((List.max?_eq_none_iff).1 hmax) hv
    | some mx =>
      have hvar0 : (0 : ℚ) ≤ varQ v := by
        apply div_nonneg _ (by positivity)
        apply List.sum_nonneg
        intro x hx
        obtain ⟨y, _, rfl⟩ := List.mem_map.1 hx
        positivity
      refine ⟨mn, mx, rfl, rfl,
        List.min?_mem (fun a b : ℚ => min_choice a b) hmin,
        (List.le_min?_iff (fun a b c : ℚ => le_min_iff) hmin).1 (le_refl mn),
        List.max?_mem (fun a b : ℚ => max_choice a b) hmax,
        (List.max?_le_iff (fun a b c : ℚ => max_le_iff) hmax).1 (le_refl mx),
        div_mul_cancel₀ _ hlen, div_mul_cancel₀ _ hlen,
        Real.mul_self_sqrt (by exact_mod_cast hvar0)⟩

/-- C6: for every non-empty group of non-absent interval-averages the MAT
summary row — and for every non-empty temps list the STemp summary row —
carries the attained minimum, the attained maximum, the arithmetic mean
(`mean · count = sum`), and the squared population standard deviation with
denominator equal to the count, not count − 1
(`var · count = Σ (x − mean)²`); the printed standard deviation is its
non-negative square root. -/
theorem C6_nonempty_group_population_statistics (ts : List (Option ℚ))
    (v : List ℚ) (hts : MAT.nanVals ts ≠ []) (hv : v ≠ []) :
    (∃ mn mx, MAT.summarize ts = .row ⟨some mn, some mx,
        some (meanQ (MAT.nanVals ts)), some (varQ (MAT.nanVals ts))⟩ ∧
      mn ∈ MAT.nanVals ts ∧ (∀ x ∈ MAT.nanVals ts, mn ≤ x) ∧
      mx ∈ MAT.nanVals ts ∧ (∀ x ∈ MAT.nanVals ts, x ≤ mx) ∧
      meanQ (MAT.nanVals ts) * ((MAT.nanVals ts).length : ℚ) =
        (MAT.nanVals ts).sum ∧
      varQ (MAT.nanVals ts) * ((MAT.nanVals ts).length : ℚ) =
        ((MAT.nanVals ts).map
          (fun x => (x - meanQ (MAT.nanVals ts)) ^ 2)).sum ∧
      Real.sqrt ((varQ (MAT.nanVals ts) : ℚ) : ℝ) *
          Real.sqrt ((varQ (MAT.nanVals ts) : ℚ) : ℝ) =
        ((varQ (MAT.nanVals ts) : ℚ) : ℝ)) ∧
    (∃ mn2 mx2, STemp.summarizeList v = .row ⟨some mn2, some mx2,
        some (meanQ v), some (varQ v)⟩ ∧
      mn2 ∈ v ∧ (∀ x ∈ v, mn2 ≤ x) ∧ mx2 ∈ v ∧ (∀ x ∈ v, x ≤ mx2) ∧
      meanQ v * (v.length : ℚ) = v.sum ∧
      varQ v * (v.length : ℚ) = (v.map (fun x => (x - meanQ v) ^ 2)).sum ∧
      Real.sqrt ((varQ v : ℚ) : ℝ) * Real.sqrt ((varQ v : ℚ) : ℝ) =
        ((varQ v : ℚ) : ℝ)) := by
  have hts0 : ts ≠ [] := by
    intro h0
    rw [h0] at hts
    exact hts rfl
  have htl : ¬(ts.length = 0) := fun h0 => hts0 (List.length_eq_zero.1 h0)
  have hvl : ¬(v.length = 0) := fun h0 => hv (List.length_eq_zero.1 h0)
  obtain ⟨mn, mx, hmin, hmax, p1, p2, p3, p4, p5, p6, p7⟩ :=
    stats_of_ne_nil (MAT.nanVals ts) hts
  obtain ⟨mn2, mx2, hmin2, hmax2, q1, q2, q3, q4, q5, q6, q7⟩ :=
    stats_of_ne_nil v hv
  constructor
  · refine ⟨mn, mx, ?_, p1, p2, p3, p4, p5, p6, p7⟩
    rw [MAT.summarize, if_neg htl]
    rw [MAT.nanmin, hmin, MAT.nanmax, hmax, MAT.nanmean, if_neg hts,
      MAT.nanvar, if_neg hts]
  · refine ⟨mn2, mx2, ?_, q1, q2, q3, q4, q5, q6, q7⟩
    rw [STemp.summarizeList, if_neg hvl, hmin2, hmax2]

/-- Witness for C6 on the spec's example group {9, 11}: count 2, min 9,
max 11, mean 10, variance 1, standard deviation √1 = 1. -/
theorem C6_nonempty_group_population_statistics_witness :
    MAT.nanVals [some 9, some 11] ≠ [] ∧ ([9, 11] : List ℚ) ≠ [] ∧
    ((∃ mn mx, MAT.summarize [some 9, some 11] = .row ⟨some mn, some mx,
        some (meanQ (MAT.nanVals [some 9, some 11])),
        some (varQ (MAT.nanVals [some 9, some 11]))⟩ ∧
      mn ∈ MAT.nanVals [some 9, some 11] ∧
      (∀ x ∈ MAT.nanVals [some 9, some 11], mn ≤ x) ∧
      mx ∈ MAT.nanVals [some 9, some 11] ∧
      (∀ x ∈ MAT.nanVals [some 9, some 11], x ≤ mx) ∧
      meanQ (MAT.nanVals [some 9, some 11]) *
          ((MAT.nanVals [some 9, some 11]).length : ℚ) =
        (MAT.nanVals [some 9, some 11]).sum ∧
      varQ (MAT.nanVals [some 9, some 11]) *
          ((MAT.nanVals [some 9, some 11]).length : ℚ) =
        ((MAT.nanVals [some 9, some 11]).map
          (fun x => (x - meanQ (MAT.nanVals [some 9, some 11])) ^ 2)).sum ∧
      Real.sqrt ((varQ (MAT.nanVals [some 9, some 11]) : ℚ) : ℝ) *
          Real.sqrt ((varQ (MAT.nanVals [some 9, some 11]) : ℚ) : ℝ) =
        ((varQ (MAT.nanVals [some 9, some 11]) : ℚ) : ℝ)) ∧
    (∃ mn2 mx2, STemp.summarizeList [9, 11] = .row ⟨some mn2, some mx2,
        some (meanQ [9, 11]), some (varQ [9, 11])⟩ ∧
      mn2 ∈ ([9, 11] : List ℚ) ∧ (∀ x ∈ ([9, 11] : List ℚ), mn2 ≤ x) ∧
      mx2 ∈ ([9, 11] : List ℚ) ∧ (∀ x ∈ ([9, 11] : List ℚ), x ≤ mx2) ∧
      meanQ [9, 11] * (([9, 11] : List ℚ).length : ℚ) =
        ([9, 11] : List ℚ).sum ∧
      varQ [9, 11] * (([9, 11] : List ℚ).length : ℚ) =
        (([9, 11] : List ℚ).map (fun x => (x - meanQ [9, 11]) ^ 2)).sum ∧
      Real.sqrt ((varQ [9, 11] : ℚ) : ℝ) *
          Real.sqrt ((varQ [9, 11] : ℚ) : ℝ) =
        ((varQ [9, 11] : ℚ) : ℝ))) ∧
    meanQ [9, 11] = 10 ∧ varQ [9, 11] = 1 ∧
    Real.sqrt ((1 : ℚ) : ℝ) = 1 ∧
    MAT.nanVals [some 9, some 11] = [9, 11] := by
  refine ⟨by simp [MAT.nanVals], by simp,
    C6_nonempty_group_population_statistics [some 9, some 11] [9, 11]
      (by simp [MAT.nanVals]) (by simp), ?_, ?_, by simp, rfl⟩
  · norm_num [meanQ]
  · norm_num [varQ, meanQ]

/-! ### The "no data" report -/

/-- C1 (amended): in the MAT variant, a grouping key whose *collected
list* is empty — no reading matches the key at all — produces the
"no data" report, not a numeric row.  The STemp variant reaches its "no
data" report only when the data list itself is empty: on any non-empty
data list its summary comprehension calls `in_range` on a *list* sample,
so the stage crashes with `TypeError` instead of reporting anything for
the key. -/
theorem C1_empty_key_reports_no_data (dl : List ℤ)
    (data : List MAT.Record) (dateYear plot : ℤ) (iv : ℤ × ℤ)
    (h : MAT.collected dl data dateYear plot iv = [])
    (ndata : List STemp.Record) (date before plot2 : ℤ) (iv2 : ℤ × ℤ)
    (h2 : ndata ≠ []) :
    MAT.summary dl data dateYear plot iv = .noData ∧
    STemp.summary dl [] date before plot2 iv2 = .ok .noData ∧
    STemp.summary dl ndata date before plot2 iv2 = .error .typeError := by
  refine ⟨?_, rfl, ?_⟩
  · rw [MAT.summary, h, MAT.summarize]
    rfl
  · cases ndata with
    | nil => exact absurd rfl h2
    | cons s rest => rfl

/-- A data line matching plot 4 / year 2016 whose depth-5 sensor token is
missing: every interval average over it is absent. -/
def exRecMissing : MAT.Record :=
  ⟨2016, 4, [.val 1, .missing, .val 3, .val 4, .val 5, .val 6, .val 7,
    .val 8, .val 9]⟩

/-- C1 counterexample: a key (year 2016, plot 4, interval (1,10)) whose
collected set of *non-absent* interval-averages is empty but which has one
matching reading.  The MAT emptiness check `len(temps) != 0` counts the
absent entry, so instead of the "no data" report the key emits a numeric
row whose statistics are all `NaN` (`nanmean` of an all-`NaN` array) —
in particular a row with mean = NaN exists. -/
theorem C1_all_absent_key_emits_nan_row :
    MAT.collected depths [exRecMissing] 2016 4 (1, 10) = [none] ∧
    MAT.nanVals (MAT.collected depths [exRecMissing] 2016 4 (1, 10)) = [] ∧
    MAT.summary depths [exRecMissing] 2016 4 (1, 10) =
      .row ⟨none, none, none, none⟩ :=
  ⟨rfl, rfl, rfl⟩

/-- Witness for C1: a key with no matching MAT readings, the STemp
no-crash case (empty data list), and the STemp crash on one data line. -/
theorem C1_empty_key_reports_no_data_witness :
    MAT.collected depths [] 2016 4 (1, 10) = [] ∧
    ([(⟨⟨0, 0⟩, 4, []⟩ : STemp.Record)] ≠ []) ∧
    (MAT.summary depths [] 2016 4 (1, 10) = .noData ∧
      STemp.summary depths [] 960 2880 4 (1, 10) = .ok .noData ∧
      STemp.summary depths [⟨⟨0, 0⟩, 4, []⟩] 960 2880 4 (1, 10) =
        .error .typeError) :=
  ⟨rfl, by decide,
    C1_empty_key_reports_no_data depths [] 2016 4 (1, 10) rfl
      [⟨⟨0, 0⟩, 4, []⟩] 960 2880 4 (1, 10) (by decide)⟩
